import Mathlib

/-!
Verification development for the provider-alibaba Redis controller.

The Go source of `pkg/clients/redis/redis.go` and
`pkg/controller/redis/redisinstance.go` is shallowly embedded below:

* Go strings are Lean `String`s; `strings.Split` / `strings.Contains` are
  re-implemented over the underlying character lists with Go semantics.
* Go errors are the inductive `GoError`.  `errors.New` allocates a fresh
  value whose identity is modelled by a `Nat` tag; `errors.Is` against a
  `errors.New` target compares those tags (pointer equality in Go);
  `errors.As` extracting `*sdkerrors.ServerError` walks the wrap chain.
* External calls (the Alibaba SDK transport, `password.Generate`, JSON
  codecs from `encoding/json`) are passed in as explicit function
  arguments, so every embedded operation stays a pure function of its
  inputs and of the outcome of the calls it makes.
* Mutation of the custom resource (`cr.Status...`) is modelled by
  returning the written values alongside the Go results.
-/

/-- Alibaba SDK `sdkerrors.ServerError`: the vendor error carrying the
per-request correlation identifier `RequestId` next to the stable
fields. -/
structure ServerError where
  HttpStatus : Int
  RequestId : String
  HostId : String
  Code : String
  Message : String
  Comment : String
deriving Repr, DecidableEq

/-- Go `error` values as used in this code base: an SDK server error, a
`errors.New` allocation (its `Nat` tag models the allocation identity that
`errors.Is` compares), or a `errors.Wrap msg inner`. -/
inductive GoError where
  | server : ServerError → GoError
  | basic : Nat → String → GoError
  | wrapped : String → GoError → GoError
deriving Repr, DecidableEq

/-- Go `errors.Is(err, target)` where `target` is a fresh `errors.New`
allocation with identity tag `t`: walk the unwrap chain comparing
identities; a `ServerError` is never the same allocation as the target. -/
def errorIs : GoError → Nat → Bool
  | .server _, _ => false
  | .basic i _, t => i == t
  | .wrapped _ inner, t => errorIs inner t

/-- Go `errors.As(err, &srverr)` for `*sdkerrors.ServerError`: the first
server error in the unwrap chain, if any. -/
def firstServerError : GoError → Option ServerError
  | .server e => some e
  | .basic _ _ => none
  | .wrapped _ inner => firstServerError inner

/-- The identity tags of all `errors.New` values inside an error: used to
say that a target allocation is fresh (distinct from everything in the
chain). -/
def basicIds : GoError → List Nat
  | .server _ => []
  | .basic i _ => [i]
  | .wrapped _ inner => basicIds inner

/-- Go `errors.Wrap(err, msg)`: nil stays nil, anything else is wrapped. -/
def goWrap (err : Option GoError) (msg : String) : Option GoError :=
  match err with
  | none => none
  | some e => some (.wrapped msg e)

/-- crossplane-runtime `resource.Ignore(fn, err)`: drop the error when the
predicate recognises it. -/
def Ignore (pred : GoError → Bool) (err : Option GoError) : Option GoError :=
  match err with
  | none => none
  | some e => if pred e then none else some e

-- String constants of pkg/clients/redis/redis.go and the controller.

def errInstanceNotFound : String := "InstanceNotFound"

def errInstanceNotFoundCode : String := "InvalidInstanceId.NotFound"

def errDescribeInstanceFailed : String := "cannot describe instance attributes"

def errGeneratePasswordFailed : String := "cannot generate a password"

def errFailedToUnmarshalWantedConfig : String := "cannot unmarshal the json config from users input"

def errFailedToUnmarshalRealConfig : String := "cannot unmarshal the json config from the real instance"

def DefaultIPModifyMode : String := "Cover"

def RedisArchTypeCluster : String := "cluster"

def errNotInstance : String := "managed resource is not an instance custom resource"

def errCreateFailed : String := "cannot create redis instance"

def errDeleteFailed : String := "cannot delete redis instance"

def errDescribeFailed : String := "cannot describe redis instance"

-- apis/redis/v1alpha1 status literals.

def RedisInstanceStateRunning : String := "Normal"

def RedisInstanceStateCreating : String := "Creating"

def RedisInstanceStateDeleting : String := "Flushing"

-- crossplane-runtime connection-secret key constants.

def ResourceCredentialsSecretUserKey : String := "username"

def ResourceCredentialsSecretPasswordKey : String := "password"

def ResourceCredentialsSecretEndpointKey : String := "endpoint"

def ResourceCredentialsSecretPortKey : String := "port"

/-- `redis.CleanError` on a non-nil error.  The source re-builds a
`CleanedServerError` from `HttpStatus`, `HostId`, `Code`, `Message` and
`Comment` (dropping `RequestId`), JSON-marshals it and feeds it to
`sdkerrors.NewServerError`, which re-parses exactly those fields back out
of the content; the composite effect on a direct `*ServerError` value is
to keep every field except `RequestId`, which becomes empty.  Any other
error (including wrapped server errors — the source uses a direct type
assertion, not `errors.As`) is returned unchanged. -/
def cleanGoError (e : GoError) : GoError :=
  match e with
  | .server se =>
    .server { HttpStatus := se.HttpStatus, RequestId := "", HostId := se.HostId,
              Code := se.Code, Message := se.Message, Comment := se.Comment }
  | other => other

/-- `redis.CleanError`: nil in, nil out; otherwise `cleanGoError`. -/
def CleanError (err : Option GoError) : Option GoError :=
  err.map cleanGoError

/-- The SDK's `ServerError.Error()` rendering (modelled from
`alibaba-cloud-sdk-go/sdk/errors/server_error.go`): the message names the
error code, the request id and the payload message. -/
def serverErrorString (e : ServerError) : String :=
  "SDK.ServerError ErrorCode: " ++ e.Code ++ " RequestId: " ++ e.RequestId
    ++ " Message: " ++ e.Message

/-- Does `sub` occur contiguously in `l`?  (Scan every suffix for a
prefix match.) -/
def listIsInfixOf (sub : List Char) : List Char → Bool
  | [] => sub.isEmpty
  | c :: cs => sub.isPrefixOf (c :: cs) || listIsInfixOf sub cs

/-- Go `strings.Contains(s, sub)`: `sub` occurs contiguously in `s`. -/
def goContains (s sub : String) : Bool :=
  listIsInfixOf sub.data s.data

/-- Helper for `goSplit`: accumulate the current field (reversed). -/
def goSplitAux (sep : Char) : List Char → List Char → List String
  | [], acc => [String.mk acc.reverse]
  | c :: cs, acc =>
    if c = sep then String.mk acc.reverse :: goSplitAux sep cs []
    else goSplitAux sep cs (c :: acc)

/-- Go `strings.Split(s, sep)` for a one-character separator (the only
use in the source is `strings.Split(..., ",")`); `Split("", ",") = [""]`
exactly as in Go. -/
def goSplit (s : String) (sep : Char) : List String :=
  goSplitAux sep s.data []

/-- `redis.IsErrorNotFound` (current version): nil is not "not found";
a chain holding a `ServerError` is "not found" iff that error's code is
`InvalidInstanceId.NotFound`; otherwise the result is
`errors.Is(err, errors.New(errInstanceNotFound))` where the target is a
brand-new allocation — its identity tag `freshId` is distinct from every
allocation the program made before. -/
def IsErrorNotFound (err : Option GoError) (freshId : Nat) : Bool :=
  match err with
  | none => false
  | some e =>
    match firstServerError e with
    | none => (false || errorIs e freshId)
    | some srverr => srverr.Code == errInstanceNotFoundCode

-- The data model: vendor attribute snapshot, desired parameters, requests.

/-- `aliredis.DBInstanceAttribute` (the fields this code reads). -/
structure DBInstanceAttribute where
  InstanceId : String := ""
  InstanceStatus : String := ""
  ConnectionDomain : String := ""
  Port : Int := 0
  ArchitectureType : String := ""
  InstanceClass : String := ""
  RealInstanceClass : String := ""
  ReadOnlyCount : Int := 0
  SecurityIPList : String := ""
  Config : String := ""
deriving Repr, DecidableEq

/-- `v1alpha1.Tag`. -/
structure Tag where
  Key : String := ""
  Value : String := ""
deriving Repr, DecidableEq

/-- `v1alpha1.RedisInstanceParameters` — every field the current client
marshals into the create request, plus the drift-detector inputs
(`EffectiveTime`, `SecurityIps`, `ParameterConfig`) the client code
reads. -/
structure RedisInstanceParameters where
  RegionID : String := ""
  Token : String := ""
  InstanceName : String := ""
  Password : String := ""
  Capacity : Option Int := none
  InstanceClass : String := ""
  ZoneID : String := ""
  ChargeType : String := ""
  NodeType : String := ""
  NetworkType : String := ""
  VpcID : String := ""
  VSwitchID : String := ""
  Period : String := ""
  BusinessInfo : String := ""
  CouponNo : String := ""
  SrcDBInstanceId : String := ""
  BackupId : String := ""
  InstanceType : String := ""
  EngineVersion : String := ""
  PrivateIpAddress : String := ""
  AutoUseCoupon : String := ""
  AutoRenew : String := ""
  AutoRenewPeriod : String := ""
  ResourceGroupId : String := ""
  RestoreTime : String := ""
  DedicatedHostGroupId : String := ""
  ShardCount : Option Int := none
  ReadOnlyCount : Option Int := none
  GlobalInstanceId : String := ""
  GlobalInstance : Bool := false
  SecondaryZoneID : String := ""
  Port : Option Int := none
  GlobalSecurityGroupIds : String := ""
  Appendonly : String := ""
  ConnectionStringPrefix : String := ""
  ParamGroupId : String := ""
  Tag : List Tag := []
  ClusterBackupId : String := ""
  EffectiveTime : String := ""
  SecurityIps : String := ""
  ParameterConfig : String := ""
deriving Repr, DecidableEq

/-- `redis.RedisConnection`. -/
structure RedisConnection where
  Username : String := ""
  Password : String := ""
  ConnectionDomain : String := ""
  Port : String := ""
deriving Repr, DecidableEq

/-- `v1alpha1.RedisInstanceObservation` (the fields written here). -/
structure RedisInstanceObservation where
  InstanceStatus : String := ""
  ConnectionReady : Bool := false
  ConnectionDomain : String := ""
  Port : String := ""
deriving Repr, DecidableEq

/-- `aliredis.ModifySecurityIpsRequest` (fields this code writes). -/
structure ModifySecurityIpsRequest where
  InstanceId : String := ""
  SecurityIps : String := ""
  ModifyMode : String := ""
deriving Repr, DecidableEq

/-- `aliredis.ModifyInstanceSpecRequest` (fields this code writes);
`ReadOnlyCount` is a `requests.Integer`, i.e. a decimal string, empty
when unset. -/
structure ModifyInstanceSpecRequest where
  InstanceId : String := ""
  InstanceClass : String := ""
  ReadOnlyCount : String := ""
  EffectiveTime : String := ""
deriving Repr, DecidableEq

/-- `aliredis.ModifyInstanceParameterRequest` (fields this code writes). -/
structure ModifyInstanceParameterRequest where
  InstanceId : String := ""
  Parameters : String := ""
deriving Repr, DecidableEq

/-- `aliredis.CreateInstanceTag`. -/
structure CreateInstanceTag where
  Key : String := ""
  Value : String := ""
deriving Repr, DecidableEq

/-- `aliredis.CreateInstanceRequest` — the fields `CreateInstance`
assigns.  SDK `requests.Integer` / `requests.Boolean` are decimal /
boolean strings, empty when unset, exactly as in the SDK. -/
structure CreateInstanceRequest where
  Token : String := ""
  InstanceName : String := ""
  InstanceClass : String := ""
  ZoneId : String := ""
  ChargeType : String := ""
  NodeType : String := ""
  NetworkType : String := ""
  VpcId : String := ""
  VSwitchId : String := ""
  Period : String := ""
  BusinessInfo : String := ""
  CouponNo : String := ""
  SrcDBInstanceId : String := ""
  BackupId : String := ""
  InstanceType : String := ""
  EngineVersion : String := ""
  PrivateIpAddress : String := ""
  AutoUseCoupon : String := ""
  AutoRenew : String := ""
  AutoRenewPeriod : String := ""
  ResourceGroupId : String := ""
  RestoreTime : String := ""
  DedicatedHostGroupId : String := ""
  GlobalInstanceId : String := ""
  GlobalInstance : String := ""
  SecondaryZoneId : String := ""
  GlobalSecurityGroupIds : String := ""
  Appendonly : String := ""
  ConnectionStringPrefix : String := ""
  ParamGroupId : String := ""
  ClusterBackupId : String := ""
  Port : String := ""
  Capacity : String := ""
  ShardCount : String := ""
  ReadOnlyCount : String := ""
  Password : String := ""
  Tag : List CreateInstanceTag := []
deriving Repr, DecidableEq

/-- `aliredis.CreateInstanceResponse` (fields this code reads). -/
structure CreateInstanceResponse where
  InstanceId : String := ""
  InstanceName : String := ""
  ConnectionDomain : String := ""
  Port : Int := 0
deriving Repr, DecidableEq

/-- Go `strconv.FormatBool` / `requests.NewBoolean`. -/
def goFormatBool (b : Bool) : String :=
  if b then "true" else "false"

/-- Go `strconv.Itoa` / `strconv.FormatInt` / `requests.NewInteger`
(decimal rendering, minus sign for negatives — `toString` on `Int`
matches it). -/
def goItoa (i : Int) : String :=
  toString i

-- Client operations (pkg/clients/redis/redis.go, current version).

/-- `redis.SecurityIpsNeedUpdate`: nothing to do when the desired
`SecurityIps` is empty; otherwise split the configured `SecurityIPList`
on commas and flag an update as soon as one configured IP is not
contained (as a substring) in the desired string; an update is a
full-replace request carrying the desired list with `ModifyMode`
"Cover". -/
def SecurityIpsNeedUpdate (attr : DBInstanceAttribute)
    (p : RedisInstanceParameters) : Option ModifySecurityIpsRequest :=
  if p.SecurityIps = "" then
    none
  else
    let ips := goSplit attr.SecurityIPList ','
    let needUpdate := ips.any fun ip => !(goContains p.SecurityIps ip)
    if needUpdate then
      some { SecurityIps := p.SecurityIps, ModifyMode := DefaultIPModifyMode }
    else
      none

/-- `redis.calculateSpecDiff`: optionally set `EffectiveTime`; compare the
desired class against `RealInstanceClass` for the "cluster" architecture
and against `InstanceClass` otherwise, returning just the class change on
a mismatch (the Go early `return diff`); only then compare the read-only
count; `nil` when nothing differs. -/
def calculateSpecDiff (attr : DBInstanceAttribute)
    (p : RedisInstanceParameters) : Option ModifyInstanceSpecRequest :=
  let diff : ModifyInstanceSpecRequest :=
    if p.EffectiveTime ≠ "" then { EffectiveTime := p.EffectiveTime } else {}
  let classMismatch :=
    if attr.ArchitectureType = RedisArchTypeCluster then
      attr.RealInstanceClass ≠ p.InstanceClass
    else
      attr.InstanceClass ≠ p.InstanceClass
  if classMismatch then
    some { diff with InstanceClass := p.InstanceClass }
  else
    match p.ReadOnlyCount with
    | some roc =>
      if attr.ReadOnlyCount ≠ roc then
        some { diff with ReadOnlyCount := goItoa roc }
      else
        none
    | none => none

/-- `redis.SpecsNeedUpdate` just forwards to `calculateSpecDiff`. -/
def SpecsNeedUpdate (attr : DBInstanceAttribute)
    (p : RedisInstanceParameters) : Option ModifyInstanceSpecRequest :=
  calculateSpecDiff attr p

/-- Go map assignment `m[k] = v` on an association list with unique keys:
replace the binding when present, append otherwise. -/
def mapInsert : List (String × String) → String → String → List (String × String)
  | [], k, v => [(k, v)]
  | (a, b) :: rest, k, v =>
    if a = k then (a, v) :: rest else (a, b) :: mapInsert rest k v

/-- One iteration of the `calculateParamDiff` loop body over a desired
`(key, val)` entry, threading the mutated `actual` map and the
`needUpdate` flag. -/
def paramMergeStep (st : List (String × String) × Bool)
    (kv : String × String) : List (String × String) × Bool :=
  match List.lookup kv.1 st.1 with
  | some actualVal =>
    if actualVal ≠ kv.2 then (mapInsert st.1 kv.1 kv.2, true) else st
  | none => (mapInsert st.1 kv.1 kv.2, true)

/-- `redis.calculateParamDiff`.  The `encoding/json` codec is external:
`parse` stands for `json.Unmarshal` into a `map[string]string` (a Go map
iterated here in its entry order) and `render` for `json.Marshal` of such
a map.  Empty desired config means no request and no error; an
unmarshal failure is wrapped with the corresponding message; otherwise
every desired entry that is missing from or different in the actual map
is written into it, and iff at least one was, the re-encoded merged map
is sent. -/
def calculateParamDiff (parse : String → Except GoError (List (String × String)))
    (render : List (String × String) → String)
    (attr : DBInstanceAttribute) (p : RedisInstanceParameters) :
    Except GoError (Option ModifyInstanceParameterRequest) :=
  if p.ParameterConfig = "" then
    .ok none
  else
    match parse attr.Config with
    | .error e => .error (.wrapped errFailedToUnmarshalRealConfig e)
    | .ok actual =>
      match parse p.ParameterConfig with
      | .error e => .error (.wrapped errFailedToUnmarshalWantedConfig e)
      | .ok wanted =>
        let merged := wanted.foldl paramMergeStep (actual, false)
        let configStr := render merged.1
        if merged.2 then
          .ok (some { Parameters := configStr })
        else
          .ok none

/-- `redis.ParamsNeedUpdate` just forwards to `calculateParamDiff`. -/
def ParamsNeedUpdate (parse : String → Except GoError (List (String × String)))
    (render : List (String × String) → String)
    (attr : DBInstanceAttribute) (p : RedisInstanceParameters) :
    Except GoError (Option ModifyInstanceParameterRequest) :=
  calculateParamDiff parse render attr p

/-- The field-by-field request marshaling of `redis.CreateInstance`,
with `pw` the local password variable whose value ends up in
`request.Password`.  The tag list is `make([]CreateInstanceTag, len(p.Tag))`
— `len(p.Tag)` zero values — followed by `append`s of the desired tags. -/
def buildCreateRequest (externalName : String) (p : RedisInstanceParameters)
    (pw : String) : CreateInstanceRequest :=
  { Token := p.Token
    InstanceName := externalName
    InstanceClass := p.InstanceClass
    ZoneId := p.ZoneID
    ChargeType := p.ChargeType
    NodeType := p.NodeType
    NetworkType := p.NetworkType
    VpcId := p.VpcID
    VSwitchId := p.VSwitchID
    Period := p.Period
    BusinessInfo := p.BusinessInfo
    CouponNo := p.CouponNo
    SrcDBInstanceId := p.SrcDBInstanceId
    BackupId := p.BackupId
    InstanceType := p.InstanceType
    EngineVersion := p.EngineVersion
    PrivateIpAddress := p.PrivateIpAddress
    AutoUseCoupon := p.AutoUseCoupon
    AutoRenew := p.AutoRenew
    AutoRenewPeriod := p.AutoRenewPeriod
    ResourceGroupId := p.ResourceGroupId
    RestoreTime := p.RestoreTime
    DedicatedHostGroupId := p.DedicatedHostGroupId
    GlobalInstanceId := p.GlobalInstanceId
    GlobalInstance := goFormatBool p.GlobalInstance
    SecondaryZoneId := p.SecondaryZoneID
    GlobalSecurityGroupIds := p.GlobalSecurityGroupIds
    Appendonly := p.Appendonly
    ConnectionStringPrefix := p.ConnectionStringPrefix
    ParamGroupId := p.ParamGroupId
    ClusterBackupId := p.ClusterBackupId
    Port := match p.Port with
      | some port => goItoa port
      | none => ""
    Capacity := match p.Capacity with
      | some c => goItoa c
      | none => ""
    ShardCount := match p.ShardCount with
      | some sc => goItoa sc
      | none => ""
    ReadOnlyCount := match p.ReadOnlyCount with
      | some roc => goItoa roc
      | none => ""
    Password := pw
    Tag := List.replicate p.Tag.length {} ++
      p.Tag.map fun t => { Key := t.Key, Value := t.Value } }

/-- The password selection of `redis.CreateInstance`: `var pw string` is
the empty string and is only ever assigned by `password.Generate()` (an
external call whose outcome is `gen`), and only when the desired
`Password` is empty; a generation failure is wrapped. -/
def selectPassword (p : RedisInstanceParameters)
    (gen : Except GoError String) : Except GoError String :=
  if p.Password = "" then
    match gen with
    | .ok s => .ok s
    | .error e => .error (.wrapped errGeneratePasswordFailed e)
  else
    .ok ""

/-- `redis.CreateInstance` (current version): pick `pw`, marshal the
request, submit it to the vendor (`vendor` is the SDK transport), clean a
failure, and on success return the response together with the
`RedisConnection` whose username is the instance id and whose password is
`pw`. -/
def CreateInstance (externalName : String) (p : RedisInstanceParameters)
    (gen : Except GoError String)
    (vendor : CreateInstanceRequest → Except GoError CreateInstanceResponse) :
    Except GoError (CreateInstanceResponse × RedisConnection) :=
  match selectPassword p gen with
  | .error e => .error e
  | .ok pw =>
    match vendor (buildCreateRequest externalName p pw) with
    | .error e => .error (cleanGoError e)
    | .ok resp =>
      .ok (resp,
        { Username := resp.InstanceId
          Password := pw
          ConnectionDomain := resp.ConnectionDomain
          Port := goItoa resp.Port })

/-- `redis.DescribeInstance` (current version): ask the vendor for the
attribute list of `id`; a transport failure is cleaned and wrapped; an
empty list becomes a fresh `errors.New(errInstanceNotFound)` whose
allocation identity is `allocId`; otherwise the first attribute and a
connection with its endpoint are returned. -/
def DescribeInstance (id : String)
    (vendor : String → Except GoError (List DBInstanceAttribute))
    (allocId : Nat) :
    Except GoError (DBInstanceAttribute × RedisConnection) :=
  match vendor id with
  | .error e => .error (.wrapped errDescribeInstanceFailed (cleanGoError e))
  | .ok attrs =>
    match attrs with
    | [] => .error (.basic allocId errInstanceNotFound)
    | attr :: _ =>
      .ok (attr,
        { ConnectionDomain := attr.ConnectionDomain
          Port := goItoa attr.Port })

/-- `redis.GenerateObservation` (current version). -/
def GenerateObservation (attr : DBInstanceAttribute) : RedisInstanceObservation :=
  { InstanceStatus := attr.InstanceStatus
    ConnectionDomain := attr.ConnectionDomain
    Port := goItoa attr.Port }

-- Controller (pkg/controller/redis/redisinstance.go, current version).

/-- The crossplane condition `Observe`/`Delete` set on the resource. -/
inductive Condition where
  | available
  | creating
  | deleting
  | unavailable
deriving Repr, DecidableEq

/-- `managed.ExternalObservation` (fields this controller sets);
`ConnectionDetails` is the key→value mapping of the connection secret,
kept as the list of entries in insertion order. -/
structure ExternalObservation where
  ResourceExists : Bool := false
  ResourceUpToDate : Bool := false
  ConnectionDetails : List (String × String) := []
deriving Repr, DecidableEq

/-- `getConnectionDetails` (current version): one entry per non-empty
field of the `RedisConnection`, under the fixed crossplane secret keys. -/
def getConnectionDetails (c : RedisConnection) : List (String × String) :=
  (if c.Username ≠ "" then [(ResourceCredentialsSecretUserKey, c.Username)] else []) ++
  (if c.Password ≠ "" then [(ResourceCredentialsSecretPasswordKey, c.Password)] else []) ++
  (if c.ConnectionDomain ≠ "" then [(ResourceCredentialsSecretEndpointKey, c.ConnectionDomain)] else []) ++
  (if c.Port ≠ "" then [(ResourceCredentialsSecretPortKey, c.Port)] else [])

/-- The resource fields `Observe` and `Delete` read: the external-name
annotation and the observed status. -/
structure RedisInstanceView where
  ExternalName : String := ""
  InstanceStatus : String := ""
deriving Repr, DecidableEq

/-- What `Observe` produces: the Go return values plus the status
mutation it performs on the resource (`cr.Status.AtProvider` and the
condition), `none` when the early no-external-name return skips it. -/
structure ObserveOutcome where
  observation : ExternalObservation := {}
  statusUpdate : Option (RedisInstanceObservation × Condition) := none
  err : Option GoError := none
deriving Repr, DecidableEq

/-- The status-string switch of `Observe`. -/
def conditionOfStatus (status : String) : Condition :=
  if status = RedisInstanceStateRunning then .available
  else if status = RedisInstanceStateCreating then .creating
  else if status = RedisInstanceStateDeleting then .deleting
  else .unavailable

/-- `external.Observe` (current version) on a `RedisInstance`.  An empty
external name reports non-existence at once; otherwise
`DescribeInstance` is consulted (`describe` is that call's outcome as a
function of the id, `freshId` the identity of the fresh target allocated
inside `IsErrorNotFound`): a describe failure is filtered through
`resource.Ignore(IsErrorNotFound, err)` and wrapped, a success reports an
existing, up-to-date resource with its connection details and records the
generated observation plus the mapped condition. -/
def Observe (cr : RedisInstanceView)
    (describe : String → Except GoError (DBInstanceAttribute × RedisConnection))
    (freshId : Nat) : ObserveOutcome :=
  if cr.ExternalName = "" then
    { observation := { ResourceExists := false } }
  else
    match describe cr.ExternalName with
    | .error e =>
      { err := goWrap (Ignore (fun x => IsErrorNotFound (some x) freshId) (some e))
          errDescribeFailed }
    | .ok (attr, conn) =>
      let atProvider := GenerateObservation attr
      { observation :=
          { ResourceExists := true
            ResourceUpToDate := true
            ConnectionDetails := getConnectionDetails conn }
        statusUpdate := some (atProvider, conditionOfStatus atProvider.InstanceStatus) }

/-- `external.Delete` (current version): set the Deleting condition, call
the vendor delete with the external name (`del` is that call's outcome),
and return `errors.Wrap(resource.Ignore(redis.IsErrorNotFound, err),
errDeleteFailed)` — the observed status is never consulted. -/
def Delete (cr : RedisInstanceView)
    (del : String → Option GoError) (freshId : Nat) :
    Condition × Option GoError :=
  (Condition.deleting,
    goWrap (Ignore (fun x => IsErrorNotFound (some x) freshId) (del cr.ExternalName))
      errDeleteFailed)

-- Helper lemmas shared by the claim theorems.

theorem errorIs_eq_false_of_fresh (e : GoError) (t : Nat) (h : t ∉ basicIds e) :
    errorIs e t = false := by
  induction e with
  | server se => rfl
  | basic i msg =>
    simp [basicIds] at h
    simp [errorIs]
    omega
  | wrapped msg inner ih =>
    simp [basicIds] at h
    simp [errorIs]
    exact ih h

theorem lookup_mapInsert_self (m : List (String × String)) (k v : String) :
    List.lookup k (mapInsert m k v) = some v := by
  induction m with
  | nil => simp [mapInsert, List.lookup]
  | cons kv rest ih =>
    obtain ⟨a, b⟩ := kv
    by_cases h : a = k
    · simp [mapInsert, h, List.lookup]
    · have hba : (k == a) = false := beq_eq_false_iff_ne.mpr fun hh => h hh.symm
      simp [mapInsert, h, List.lookup, hba, ih]

theorem lookup_mapInsert_ne (m : List (String × String)) (k k' v : String)
    (h : k' ≠ k) :
    List.lookup k' (mapInsert m k v) = List.lookup k' m := by
  induction m with
  | nil =>
    have hf : (k' == k) = false := beq_eq_false_iff_ne.mpr h
    simp [mapInsert, List.lookup, hf]
  | cons kv rest ih =>
    obtain ⟨a, b⟩ := kv
    by_cases ha : a = k
    · subst ha
      have hf : (k' == a) = false := beq_eq_false_iff_ne.mpr h
      simp [mapInsert, List.lookup, hf]
    · by_cases hk' : a = k'
      · subst hk'
        simp [mapInsert, ha, List.lookup]
      · have hf : (k' == a) = false := beq_eq_false_iff_ne.mpr fun hh => hk' hh.symm
        simp [mapInsert, ha, List.lookup, hf, ih]

theorem lookup_eq_none_of_not_mem_keys (m : List (String × String)) (k : String)
    (h : k ∉ m.map Prod.fst) :
    List.lookup k m = none := by
  induction m with
  | nil => simp [List.lookup]
  | cons kv rest ih =>
    obtain ⟨a, b⟩ := kv
    rw [List.map_cons] at h
    have h1 : ¬k = a := fun hh => h (by simp [hh])
    have h2 : k ∉ rest.map Prod.fst := fun hh => h (by simp [hh])
    have hba : (k == a) = false := beq_eq_false_iff_ne.mpr h1
    simp [List.lookup, hba, ih h2]

theorem paramMerge_needUpdate (wanted : List (String × String)) :
    ∀ (actual : List (String × String)) (b : Bool),
    (wanted.foldl paramMergeStep (actual, b)).2 =
      (b || wanted.any fun kv => !(List.lookup kv.1 actual == some kv.2)) := by
  induction wanted with
  | nil => intro actual b; simp
  | cons kv t ih =>
    intro actual b
    obtain ⟨k, v⟩ := kv
    rw [List.foldl_cons, List.any_cons]
    cases hl : List.lookup k actual with
    | none =>
      have hstep : paramMergeStep (actual, b) (k, v) = (mapInsert actual k v, true) := by
        simp [paramMergeStep, hl]
      rw [hstep, ih]
      simp [hl]
    | some av =>
      by_cases hv : av = v
      · have hstep : paramMergeStep (actual, b) (k, v) = (actual, b) := by
          simp [paramMergeStep, hl, hv]
        rw [hstep, ih]
        simp [hl, hv]
      · have hstep : paramMergeStep (actual, b) (k, v) = (mapInsert actual k v, true) := by
          simp [paramMergeStep, hl, hv]
        rw [hstep, ih]
        simp [hl, hv]

theorem paramMerge_lookup (wanted : List (String × String)) :
    ∀ (actual : List (String × String)) (b : Bool) (k : String),
    (wanted.map Prod.fst).Nodup →
    List.lookup k (wanted.foldl paramMergeStep (actual, b)).1 =
      (match List.lookup k wanted with
       | some v => some v
       | none => List.lookup k actual) := by
  induction wanted with
  | nil => intro actual b k _; simp [List.lookup]
  | cons kv t ih =>
    intro actual b k hnd
    obtain ⟨k0, v0⟩ := kv
    rw [List.map_cons, List.nodup_cons] at hnd
    obtain ⟨hk0, hndt⟩ := hnd
    rw [List.foldl_cons]
    have hstep : ∃ b', t.foldl paramMergeStep (paramMergeStep (actual, b) (k0, v0)) =
        t.foldl paramMergeStep ((paramMergeStep (actual, b) (k0, v0)).1, b') := by
      exact ⟨(paramMergeStep (actual, b) (k0, v0)).2, rfl⟩
    have hsame : List.lookup k0 (paramMergeStep (actual, b) (k0, v0)).1 = some v0 := by
      cases hl : List.lookup k0 actual with
      | none => simp [paramMergeStep, hl, lookup_mapInsert_self]
      | some av =>
        by_cases hv : av = v0
        · simp [paramMergeStep, hl, hv]
        · simp [paramMergeStep, hl, hv, lookup_mapInsert_self]
    have hother : ∀ k', k' ≠ k0 →
        List.lookup k' (paramMergeStep (actual, b) (k0, v0)).1 = List.lookup k' actual := by
      intro k' hk'
      cases hl : List.lookup k0 actual with
      | none => simp [paramMergeStep, hl, lookup_mapInsert_ne _ _ _ _ hk']
      | some av =>
        by_cases hv : av = v0
        · simp [paramMergeStep, hl, hv]
        · simp [paramMergeStep, hl, hv, lookup_mapInsert_ne _ _ _ _ hk']
    by_cases hkk : k = k0
    · have := ih (paramMergeStep (actual, b) (k0, v0)).1 (paramMergeStep (actual, b) (k0, v0)).2 k hndt
      rw [show t.foldl paramMergeStep (paramMergeStep (actual, b) (k0, v0)) =
          t.foldl paramMergeStep ((paramMergeStep (actual, b) (k0, v0)).1,
            (paramMergeStep (actual, b) (k0, v0)).2) from rfl, this]
      have hnone : List.lookup k t = none := by
        rw [hkk]; exact lookup_eq_none_of_not_mem_keys t k0 hk0
      have hs : List.lookup k (paramMergeStep (actual, b) (k0, v0)).1 = some v0 := by
        rw [hkk]; exact hsame
      have ht : (k == k0) = true := beq_iff_eq.mpr hkk
      simp [List.lookup, hnone, hs, ht]
    · have := ih (paramMergeStep (actual, b) (k0, v0)).1 (paramMergeStep (actual, b) (k0, v0)).2 k hndt
      rw [show t.foldl paramMergeStep (paramMergeStep (actual, b) (k0, v0)) =
          t.foldl paramMergeStep ((paramMergeStep (actual, b) (k0, v0)).1,
            (paramMergeStep (actual, b) (k0, v0)).2) from rfl, this]
      have hf : (k == k0) = false := beq_eq_false_iff_ne.mpr hkk
      simp [List.lookup, hf, hother k hkk]

/-- Claim C9: `IsErrorNotFound` returns true exactly when the error chain
holds an SDK `ServerError` whose code is `InvalidInstanceId.NotFound`;
any error without a `ServerError` in its chain yields false — in
particular the fresh `errors.New("InstanceNotFound")` value that
`DescribeInstance` returns for an empty describe response, because the
`errors.Is` comparison targets a newly constructed allocation that can
never match an existing one. -/
theorem isErrorNotFound_only_server_code (e : GoError) (freshId : Nat)
    (hfresh : freshId ∉ basicIds e) :
    (IsErrorNotFound (some e) freshId = true ↔
      ∃ se, firstServerError e = some se ∧ se.Code = errInstanceNotFoundCode)
    ∧ (firstServerError e = none → IsErrorNotFound (some e) freshId = false)
    ∧ (∀ (id : String) (vendor : String → Except GoError (List DBInstanceAttribute))
        (a : Nat), vendor id = .ok [] → a ≠ freshId →
        DescribeInstance id vendor a = .error (.basic a errInstanceNotFound) ∧
        IsErrorNotFound (some (.basic a errInstanceNotFound)) freshId = false) := by
  refine ⟨?_, ?_, ?_⟩
  · cases hse : firstServerError e with
    | none =>
      simp [IsErrorNotFound, hse, errorIs_eq_false_of_fresh e freshId hfresh]
    | some se =>
      simp [IsErrorNotFound, hse]
  · intro hnone
    simp [IsErrorNotFound, hnone, errorIs_eq_false_of_fresh e freshId hfresh]
  · intro id vendor a hvend hne
    constructor
    · simp [DescribeInstance, hvend]
    · simp [IsErrorNotFound, firstServerError, errorIs]
      exact hne

theorem isErrorNotFound_only_server_code_witness :
    IsErrorNotFound (some (GoError.basic 3 errInstanceNotFound)) 7 = false ∧
    DescribeInstance "r-id" (fun _ => .ok []) 3 =
      .error (.basic 3 errInstanceNotFound) := by
  have h := isErrorNotFound_only_server_code (GoError.basic 3 errInstanceNotFound) 7
    (by simp [basicIds])
  have h3 := h.2.2 "r-id" (fun _ => .ok []) 3 rfl (by omega)
  exact ⟨h3.2, h3.1⟩

/-- Claim C6: `getConnectionDetails` emits each of the four fixed secret
keys (username, password, endpoint, port) exactly when the corresponding
`RedisConnection` field is non-empty; with only the username "u1" set the
mapping is exactly the singleton, and with all four fields set all four
keys appear. -/
theorem getConnectionDetails_keys (c : RedisConnection) :
    ((ResourceCredentialsSecretUserKey ∈ (getConnectionDetails c).map Prod.fst) ↔
      c.Username ≠ "")
    ∧ ((ResourceCredentialsSecretPasswordKey ∈ (getConnectionDetails c).map Prod.fst) ↔
      c.Password ≠ "")
    ∧ ((ResourceCredentialsSecretEndpointKey ∈ (getConnectionDetails c).map Prod.fst) ↔
      c.ConnectionDomain ≠ "")
    ∧ ((ResourceCredentialsSecretPortKey ∈ (getConnectionDetails c).map Prod.fst) ↔
      c.Port ≠ "")
    ∧ getConnectionDetails { Username := "u1" } =
      [(ResourceCredentialsSecretUserKey, "u1")]
    ∧ getConnectionDetails
        { Username := "u1", Password := "p1",
          ConnectionDomain := "1.2.3.4", Port := "8080" } =
      [(ResourceCredentialsSecretUserKey, "u1"),
       (ResourceCredentialsSecretPasswordKey, "p1"),
       (ResourceCredentialsSecretEndpointKey, "1.2.3.4"),
       (ResourceCredentialsSecretPortKey, "8080")] := by
  refine ⟨?_, ?_, ?_, ?_, by decide, by decide⟩ <;>
    by_cases hu : c.Username = "" <;>
    by_cases hp : c.Password = "" <;>
    by_cases hd : c.ConnectionDomain = "" <;>
    by_cases hpt : c.Port = "" <;>
    simp [getConnectionDetails, hu, hp, hd, hpt,
      ResourceCredentialsSecretUserKey, ResourceCredentialsSecretPasswordKey,
      ResourceCredentialsSecretEndpointKey, ResourceCredentialsSecretPortKey]

/-- Claim C10: the create request's tag list is built as
`make([]CreateInstanceTag, len(p.Tag))` followed by appends, so it has
length `2·n`, its first `n` entries are zero-value (empty key/value) tags
and the desired tags occupy the second half. -/
theorem createRequest_tag_doubling (externalName : String)
    (p : RedisInstanceParameters) (pw : String) :
    ((buildCreateRequest externalName p pw).Tag).length = 2 * p.Tag.length
    ∧ ((buildCreateRequest externalName p pw).Tag).take p.Tag.length =
      List.replicate p.Tag.length ({} : CreateInstanceTag)
    ∧ ((buildCreateRequest externalName p pw).Tag).drop p.Tag.length =
      p.Tag.map fun t => { Key := t.Key, Value := t.Value } := by
  refine ⟨?_, ?_, ?_⟩
  · simp [buildCreateRequest]
    omega
  · exact List.take_left' (by simp)
  · exact List.drop_left' (by simp)

/-- Claim C2: with an empty external-name annotation `Observe` reports
non-existence and no error whatever the describe call would have
returned (it is never made); with a non-empty external name and a
successful `DescribeInstance`, `Observe` reports an existing and
up-to-date resource. -/
theorem observe_existence_contract :
    (∀ (cr : RedisInstanceView)
        (describe : String → Except GoError (DBInstanceAttribute × RedisConnection))
        (freshId : Nat), cr.ExternalName = "" →
      Observe cr describe freshId = { observation := { ResourceExists := false } })
    ∧ (∀ (cr : RedisInstanceView)
        (describe : String → Except GoError (DBInstanceAttribute × RedisConnection))
        (freshId : Nat) (attr : DBInstanceAttribute) (conn : RedisConnection),
        cr.ExternalName ≠ "" →
        describe cr.ExternalName = .ok (attr, conn) →
        Observe cr describe freshId =
          { observation :=
              { ResourceExists := true
                ResourceUpToDate := true
                ConnectionDetails := getConnectionDetails conn }
            statusUpdate := some (GenerateObservation attr,
              conditionOfStatus (GenerateObservation attr).InstanceStatus) }) := by
  constructor
  · intro cr describe freshId h
    simp [Observe, h]
  · intro cr describe freshId attr conn h hd
    simp [Observe, h, hd]

theorem observe_existence_contract_witness :
    Observe { ExternalName := "", InstanceStatus := "" }
      (fun _ => .error (.basic 0 "never called")) 5 =
      { observation := { ResourceExists := false } }
    ∧ Observe { ExternalName := "testId", InstanceStatus := "" }
      (fun _ => .ok ({ InstanceStatus := "Normal" }, { ConnectionDomain := "172.0.0.1", Port := "8080" })) 5 =
      { observation :=
          { ResourceExists := true
            ResourceUpToDate := true
            ConnectionDetails :=
              getConnectionDetails { ConnectionDomain := "172.0.0.1", Port := "8080" } }
        statusUpdate := some
          (GenerateObservation { InstanceStatus := "Normal" },
           conditionOfStatus (GenerateObservation { InstanceStatus := "Normal" }).InstanceStatus) } := by
  constructor
  · exact observe_existence_contract.1 _ _ 5 rfl
  · exact observe_existence_contract.2 _ _ 5 _ _ (by decide) rfl

/-- Claim C3 (counterexample): the claim asserts `Delete` returns no
error whenever the observed status is already the Deleting state
("Flushing"); but the code never consults the status — with status
"Flushing" and a vendor delete failing with a generic (non-"not found")
error, `Delete` returns the wrapped error. -/
theorem delete_deleting_state_still_errors :
    ({ ExternalName := "r-x", InstanceStatus := RedisInstanceStateDeleting } :
        RedisInstanceView).InstanceStatus = RedisInstanceStateDeleting
    ∧ (Delete { ExternalName := "r-x", InstanceStatus := RedisInstanceStateDeleting }
        (fun _ => some (.basic 3 "boom")) 99).2 =
      some (.wrapped errDeleteFailed (.basic 3 "boom")) := by
  constructor
  · rfl
  · rfl

/-- Claim C3 (amended): `Delete` returns no error exactly when the
vendor delete call succeeds or fails with a "not found" error
(`IsErrorNotFound`); the observed status — the already-Deleting state
included — is never consulted, and every other failure is propagated
wrapped with the delete-failure prefix. -/
theorem delete_idempotence_contract (cr : RedisInstanceView)
    (del : String → Option GoError) (freshId : Nat) :
    (del cr.ExternalName = none → (Delete cr del freshId).2 = none)
    ∧ (∀ e, del cr.ExternalName = some e →
        IsErrorNotFound (some e) freshId = true → (Delete cr del freshId).2 = none)
    ∧ (∀ e, del cr.ExternalName = some e →
        IsErrorNotFound (some e) freshId = false →
        (Delete cr del freshId).2 = some (.wrapped errDeleteFailed e))
    ∧ (∀ s, (Delete { cr with InstanceStatus := s } del freshId).2 =
        (Delete cr del freshId).2) := by
  refine ⟨?_, ?_, ?_, ?_⟩
  · intro h
    simp [Delete, h, Ignore, goWrap]
  · intro e he hnf
    simp [Delete, he, Ignore, goWrap, hnf]
  · intro e he hnf
    simp [Delete, he, Ignore, goWrap, hnf]
  · intro s
    simp [Delete]

theorem delete_idempotence_contract_witness :
    (Delete { ExternalName := "r-x", InstanceStatus := RedisInstanceStateDeleting }
      (fun _ => some (.server
        { HttpStatus := 404
          RequestId := ""
          HostId := ""
          Code := "InvalidInstanceId.NotFound"
          Message := ""
          Comment := "" })) 99).2 = none := by
  exact (delete_idempotence_contract
    { ExternalName := "r-x", InstanceStatus := RedisInstanceStateDeleting }
    (fun _ => some (.server
      { HttpStatus := 404
        RequestId := ""
        HostId := ""
        Code := "InvalidInstanceId.NotFound"
        Message := ""
        Comment := "" })) 99).2.1 _ rfl (by decide)

/-- Claim C4 (counterexample): the claim produces a request exactly when
some desired IP is absent from the configured list — but the code checks
the opposite direction.  Here the desired list has the extra IP
"10.0.0.3" that is absent from the configured list, so the claim demands
a "Cover" replace request, yet `SecurityIpsNeedUpdate` returns none
(each configured IP is a substring of the desired string). -/
theorem securityIps_wrong_direction :
    "10.0.0.3" ∈ goSplit "10.0.0.1,10.0.0.2,10.0.0.3" ','
    ∧ "10.0.0.3" ∉ goSplit "10.0.0.1,10.0.0.2" ','
    ∧ SecurityIpsNeedUpdate { SecurityIPList := "10.0.0.1,10.0.0.2" }
        { SecurityIps := "10.0.0.1,10.0.0.2,10.0.0.3" } = none := by
  refine ⟨by decide, by decide, by decide⟩

/-- Claim C4 (amended): with a non-empty desired security-IP list,
`SecurityIpsNeedUpdate` produces a modify-IP request exactly when some
currently configured IP (from the comma-split of the observed
`SecurityIPList`) is not contained as a substring in the desired
`SecurityIps` string; any returned request carries the full desired list
with `ModifyMode` "Cover"; in particular, with configured list
"10.0.0.1,10.0.0.2" and a desired list containing both, no request is
produced, and with "10.0.0.2" missing from the desired list a "Cover"
replace request is produced. -/
theorem securityIps_cover_contract (attr : DBInstanceAttribute)
    (p : RedisInstanceParameters) :
    ((SecurityIpsNeedUpdate attr p).isSome ↔
      p.SecurityIps ≠ "" ∧
        ∃ ip ∈ goSplit attr.SecurityIPList ',', goContains p.SecurityIps ip = false)
    ∧ (∀ req, SecurityIpsNeedUpdate attr p = some req →
        req.SecurityIps = p.SecurityIps ∧ req.ModifyMode = DefaultIPModifyMode)
    ∧ SecurityIpsNeedUpdate { SecurityIPList := "10.0.0.1,10.0.0.2" }
        { SecurityIps := "10.0.0.1,10.0.0.2" } = none
    ∧ SecurityIpsNeedUpdate { SecurityIPList := "10.0.0.1,10.0.0.2" }
        { SecurityIps := "10.0.0.1" } =
      some { SecurityIps := "10.0.0.1", ModifyMode := DefaultIPModifyMode } := by
  refine ⟨?_, ?_, by decide, by decide⟩
  · by_cases hs : p.SecurityIps = ""
    · simp [SecurityIpsNeedUpdate, hs]
    · simp only [SecurityIpsNeedUpdate, if_neg hs]
      constructor
      · intro h
        refine ⟨hs, ?_⟩
        by_cases h2 : ((goSplit attr.SecurityIPList ',').any
            fun ip => !(goContains p.SecurityIps ip)) = true
        · rw [List.any_eq_true] at h2
          obtain ⟨ip, hip, hf⟩ := h2
          exact ⟨ip, hip, by simpa using hf⟩
        · simp [h2] at h
      · rintro ⟨-, ip, hip, hf⟩
        have h2 : ((goSplit attr.SecurityIPList ',').any
            fun ip => !(goContains p.SecurityIps ip)) = true := by
          rw [List.any_eq_true]
          exact ⟨ip, hip, by simp [hf]⟩
        simp [h2]
  · intro req hreq
    by_cases hs : p.SecurityIps = ""
    · simp [SecurityIpsNeedUpdate, hs] at hreq
    · simp only [SecurityIpsNeedUpdate, if_neg hs] at hreq
      by_cases h2 : ((goSplit attr.SecurityIPList ',').any
          fun ip => !(goContains p.SecurityIps ip)) = true
      · simp only [h2, if_true] at hreq
        injection hreq with h3
        rw [← h3]
        exact ⟨rfl, rfl⟩
      · simp [h2] at hreq

theorem securityIps_cover_contract_witness :
    ({ SecurityIps := "10.0.0.1", ModifyMode := DefaultIPModifyMode } :
        ModifySecurityIpsRequest).SecurityIps = "10.0.0.1"
    ∧ ({ SecurityIps := "10.0.0.1", ModifyMode := DefaultIPModifyMode } :
        ModifySecurityIpsRequest).ModifyMode = DefaultIPModifyMode := by
  exact (securityIps_cover_contract { SecurityIPList := "10.0.0.1,10.0.0.2" }
    { SecurityIps := "10.0.0.1" }).2.1 _ (by decide)

/-- Claim C5 (counterexample): the claim says the cleaned error's message
never contains the original request ID; but `CleanError` keeps the
`Message` field verbatim, so a request ID that happens to occur inside
the retained message survives into the cleaned error's rendered
message. -/
theorem cleanError_message_keeps_embedded_id :
    "REQ42" ≠ ""
    ∧ CleanError (some (.server
        { HttpStatus := 400
          RequestId := "REQ42"
          HostId := "h1"
          Code := "Throttling.User"
          Message := "request REQ42 was throttled"
          Comment := "" })) = some (.server
        { HttpStatus := 400
          RequestId := ""
          HostId := "h1"
          Code := "Throttling.User"
          Message := "request REQ42 was throttled"
          Comment := "" })
    ∧ goContains (serverErrorString
        { HttpStatus := 400
          RequestId := ""
          HostId := "h1"
          Code := "Throttling.User"
          Message := "request REQ42 was throttled"
          Comment := "" }) "REQ42" = true := by
  refine ⟨by decide, by decide, by decide⟩

/-- Claim C5 (amended): `CleanError` rebuilds a server error with the
`RequestId` field dropped (empty in the result) while `HttpStatus`,
`HostId`, `Code`, `Message` and `Comment` are preserved unchanged — in
particular the error code is unchanged — so the request ID no longer
appears as a field of the error and can survive in the rendered message
only when it occurs inside one of the retained fields; `CleanError`
applied to nil returns nil, and applied to a non-server error returns it
unchanged. -/
theorem cleanError_preserves_code_drops_request_id :
    (∀ e : ServerError, CleanError (some (.server e)) = some (.server
        { HttpStatus := e.HttpStatus
          RequestId := ""
          HostId := e.HostId
          Code := e.Code
          Message := e.Message
          Comment := e.Comment }))
    ∧ (∀ (e se : ServerError), CleanError (some (.server e)) = some (.server se) →
        se.Code = e.Code ∧ se.RequestId = "")
    ∧ CleanError none = none
    ∧ (∀ err : GoError, (∀ se : ServerError, err ≠ .server se) →
        CleanError (some err) = some err) := by
  refine ⟨fun e => rfl, ?_, rfl, ?_⟩
  · intro e se h
    simp only [CleanError, Option.map, cleanGoError, Option.some.injEq,
      GoError.server.injEq] at h
    subst h
    exact ⟨rfl, rfl⟩
  · intro err h
    cases err with
    | server se => exact absurd rfl (h se)
    | basic i m => rfl
    | wrapped m inner => rfl

theorem cleanError_preserves_code_drops_request_id_witness :
    ({ HttpStatus := 403
       RequestId := ""
       HostId := "h9"
       Code := "Throttling.Api"
       Message := "too many requests"
       Comment := "c9" } : ServerError).Code =
      ({ HttpStatus := 403
         RequestId := "F00F"
         HostId := "h9"
         Code := "Throttling.Api"
         Message := "too many requests"
         Comment := "c9" } : ServerError).Code
    ∧ ({ HttpStatus := 403
         RequestId := ""
         HostId := "h9"
         Code := "Throttling.Api"
         Message := "too many requests"
         Comment := "c9" } : ServerError).RequestId = "" := by
  exact cleanError_preserves_code_drops_request_id.2.1
    { HttpStatus := 403
      RequestId := "F00F"
      HostId := "h9"
      Code := "Throttling.Api"
      Message := "too many requests"
      Comment := "c9" }
    { HttpStatus := 403
      RequestId := ""
      HostId := "h9"
      Code := "Throttling.Api"
      Message := "too many requests"
      Comment := "c9" } rfl

/-- Claim C8: `calculateSpecDiff` (via `SpecsNeedUpdate`) compares the
desired class against `RealInstanceClass` for the "cluster" architecture
and against `InstanceClass` otherwise; a class mismatch yields a request
carrying only the class change (the read-only-count field stays unset)
and short-circuits, so the read-only count is compared only when the
classes agree; when neither differs, no request is returned. -/
theorem specsNeedUpdate_contract (attr : DBInstanceAttribute)
    (p : RedisInstanceParameters) :
    ((if attr.ArchitectureType = RedisArchTypeCluster then attr.RealInstanceClass
      else attr.InstanceClass) ≠ p.InstanceClass →
      SpecsNeedUpdate attr p = some
        { InstanceClass := p.InstanceClass
          ReadOnlyCount := ""
          EffectiveTime := if p.EffectiveTime ≠ "" then p.EffectiveTime else "" })
    ∧ ((if attr.ArchitectureType = RedisArchTypeCluster then attr.RealInstanceClass
        else attr.InstanceClass) = p.InstanceClass →
        ∀ roc, p.ReadOnlyCount = some roc → attr.ReadOnlyCount ≠ roc →
        SpecsNeedUpdate attr p = some
          { InstanceClass := ""
            ReadOnlyCount := goItoa roc
            EffectiveTime := if p.EffectiveTime ≠ "" then p.EffectiveTime else "" })
    ∧ ((if attr.ArchitectureType = RedisArchTypeCluster then attr.RealInstanceClass
        else attr.InstanceClass) = p.InstanceClass → p.ReadOnlyCount = none →
        SpecsNeedUpdate attr p = none)
    ∧ ((if attr.ArchitectureType = RedisArchTypeCluster then attr.RealInstanceClass
        else attr.InstanceClass) = p.InstanceClass →
        ∀ roc, p.ReadOnlyCount = some roc → attr.ReadOnlyCount = roc →
        SpecsNeedUpdate attr p = none) := by
  by_cases hc : attr.ArchitectureType = RedisArchTypeCluster <;>
    refine ⟨?_, ?_, ?_, ?_⟩
  · intro h
    rw [if_pos hc] at h
    simp [SpecsNeedUpdate, calculateSpecDiff, hc, h]
    split_ifs <;> simp
  · intro h roc hroc hne
    rw [if_pos hc] at h
    simp [SpecsNeedUpdate, calculateSpecDiff, hc, h, hroc, hne]
    split_ifs <;> simp
  · intro h hnone
    rw [if_pos hc] at h
    simp [SpecsNeedUpdate, calculateSpecDiff, hc, h, hnone]
  · intro h roc hroc heq
    rw [if_pos hc] at h
    simp [SpecsNeedUpdate, calculateSpecDiff, hc, h, hroc, heq]
  · intro h
    rw [if_neg hc] at h
    simp [SpecsNeedUpdate, calculateSpecDiff, hc, h]
    split_ifs <;> simp
  · intro h roc hroc hne
    rw [if_neg hc] at h
    simp [SpecsNeedUpdate, calculateSpecDiff, hc, h, hroc, hne]
    split_ifs <;> simp
  · intro h hnone
    rw [if_neg hc] at h
    simp [SpecsNeedUpdate, calculateSpecDiff, hc, h, hnone]
  · intro h roc hroc heq
    rw [if_neg hc] at h
    simp [SpecsNeedUpdate, calculateSpecDiff, hc, h, hroc, heq]

theorem specsNeedUpdate_contract_witness :
    SpecsNeedUpdate
      { ArchitectureType := RedisArchTypeCluster
        InstanceClass := "redis.master.small.default"
        RealInstanceClass := "redis.logic.sharding.2g.8db.0rodb.8proxy.default" }
      { InstanceClass := "redis.logic.sharding.4g.8db.0rodb.8proxy.default" } =
      some
        { InstanceClass := "redis.logic.sharding.4g.8db.0rodb.8proxy.default"
          ReadOnlyCount := ""
          EffectiveTime := "" } := by
  have h := (specsNeedUpdate_contract
    { ArchitectureType := RedisArchTypeCluster
      InstanceClass := "redis.master.small.default"
      RealInstanceClass := "redis.logic.sharding.2g.8db.0rodb.8proxy.default" }
    { InstanceClass := "redis.logic.sharding.4g.8db.0rodb.8proxy.default" }).1
    (by decide)
  simpa using h

/-- Claim C7: with an empty desired `ParameterConfig` the detector
returns no request and no error; with both configs decoded (the
`encoding/json` codec being external, `parse`/`render` stand for
`json.Unmarshal`/`json.Marshal` over string→string maps), a
modify-parameter request is produced exactly when some desired key is
missing from, or mapped differently in, the actual map, and the request's
`Parameters` field is the encoding of the actual map with every desired
key's value overriding it. -/
theorem paramsNeedUpdate_merge_contract :
    (∀ (parse : String → Except GoError (List (String × String)))
        (render : List (String × String) → String)
        (attr : DBInstanceAttribute) (p : RedisInstanceParameters),
        p.ParameterConfig = "" → ParamsNeedUpdate parse render attr p = .ok none)
    ∧ (∀ (parse : String → Except GoError (List (String × String)))
        (render : List (String × String) → String)
        (attr : DBInstanceAttribute) (p : RedisInstanceParameters)
        (actual wanted : List (String × String)),
        p.ParameterConfig ≠ "" →
        parse attr.Config = .ok actual →
        parse p.ParameterConfig = .ok wanted →
        (wanted.map Prod.fst).Nodup →
        ((ParamsNeedUpdate parse render attr p = .ok none ↔
          ∀ kv ∈ wanted, List.lookup kv.1 actual = some kv.2)
        ∧ (∀ req, ParamsNeedUpdate parse render attr p = .ok (some req) →
            ∃ m, req.Parameters = render m ∧
              ∀ k, List.lookup k m =
                (match List.lookup k wanted with
                 | some v => some v
                 | none => List.lookup k actual)))) := by
  constructor
  · intro parse render attr p h
    simp [ParamsNeedUpdate, calculateParamDiff, h]
  · intro parse render attr p actual wanted hne hpa hpw hnd
    have hres_eq : ParamsNeedUpdate parse render attr p =
        (if (wanted.foldl paramMergeStep (actual, false)).2 then
          .ok (some { Parameters := render (wanted.foldl paramMergeStep (actual, false)).1 })
        else .ok none) := by
      simp [ParamsNeedUpdate, calculateParamDiff, hne, hpa, hpw]
    rw [paramMerge_needUpdate wanted actual false] at hres_eq
    simp only [Bool.false_or] at hres_eq
    constructor
    · rw [hres_eq]
      by_cases hu : (wanted.any fun kv => !(List.lookup kv.1 actual == some kv.2)) = true
      · rw [if_pos hu]
        constructor
        · intro h
          exact absurd h (by simp)
        · intro hall
          exfalso
          rw [List.any_eq_true] at hu
          obtain ⟨kv, hkv, hb⟩ := hu
          have h2 := hall kv hkv
          rw [h2] at hb
          simp at hb
      · rw [if_neg hu]
        have hu' : (wanted.any fun kv => !(List.lookup kv.1 actual == some kv.2)) = false :=
          Bool.eq_false_iff.mpr hu
        constructor
        · intro _ kv hkv
          rw [List.any_eq_false] at hu'
          have h3 := hu' kv hkv
          simpa using h3
        · intro _
          rfl
    · intro req hres
      rw [hres_eq] at hres
      by_cases hu : (wanted.any fun kv => !(List.lookup kv.1 actual == some kv.2)) = true
      · rw [if_pos hu] at hres
        simp only [Except.ok.injEq, Option.some.injEq] at hres
        refine ⟨(wanted.foldl paramMergeStep (actual, false)).1, ?_, ?_⟩
        · rw [← hres]
        · intro k
          exact paramMerge_lookup wanted actual false k hnd
      · rw [if_neg hu] at hres
        simp at hres

theorem paramsNeedUpdate_merge_contract_witness :
    ParamsNeedUpdate (fun _ => .ok [("appendonly", "yes")]) (fun _ => "enc")
      { Config := "cfg" } { ParameterConfig := "desired" } = .ok none := by
  exact ((paramsNeedUpdate_merge_contract.2 (fun _ => .ok [("appendonly", "yes")])
    (fun _ => "enc") { Config := "cfg" } { ParameterConfig := "desired" }
    [("appendonly", "yes")] [("appendonly", "yes")]
    (by decide) rfl rfl (by simp)).1).mpr (by decide)

/-- Claim C1 (code-bug evaluation): the local `pw` is only ever assigned
inside the `p.Password == ""` branch, yet `request.Password = pw` is
executed unconditionally, so whenever the desired spec carries a
non-empty user password, `CreateInstance` submits the create request
with an EMPTY password (and returns an empty connection password) — the
user-supplied password is dropped instead of being passed through
unmodified as the spec and the code's own comment require.  (The
generated-password half of the claim does hold: an empty desired
password yields `pw` from `password.Generate`, placed in the request and
in the returned `RedisConnection`.) -/
theorem createInstance_drops_user_password (externalName : String)
    (p : RedisInstanceParameters) (gen : Except GoError String)
    (vendor : CreateInstanceRequest → Except GoError CreateInstanceResponse)
    (h : p.Password ≠ "") :
    CreateInstance externalName p gen vendor =
      (match vendor (buildCreateRequest externalName p "") with
       | .error e => .error (cleanGoError e)
       | .ok resp => .ok (resp,
          { Username := resp.InstanceId
            Password := ""
            ConnectionDomain := resp.ConnectionDomain
            Port := goItoa resp.Port })) := by
  simp [CreateInstance, selectPassword, h]

theorem createInstance_drops_user_password_witness :
    CreateInstance "web" { Password := "userSecret123" } (.ok "GENERATEDPW")
      (fun req => .error (.basic 7 req.Password)) = .error (.basic 7 "") := by
  rw [createInstance_drops_user_password "web" { Password := "userSecret123" }
    (.ok "GENERATEDPW") (fun req => .error (.basic 7 req.Password)) (by decide)]
  rfl
